import Mathlib

/-!
Shallow embedding of the vendor-management backend (Django app `vendors`).

The data model follows `vendors/models.py`; the request handlers and the
metric-recalculation functions follow `vendors/views.py`.  DateTime values
are modelled as rational timestamps in seconds (so `acknowledgement_date -
issue_date` is directly the response time in seconds, matching
`total_seconds()`), and Django `FloatField`s are modelled as exact
rationals.  The database is a record of three lists; `objects.create`
appends, `save()` on a fetched row replaces the row with the same primary
key, and `delete()` removes it.  Each HTTP method of a view function is
embedded as a separate Lean function named after the view.
-/

namespace VMS

/-- Row of the `Vendor` model (`models.py`): `vendor_code` is the primary key. -/
structure Vendor where
  vendor_code : String
  name : String
  contact_details : String
  address : String
  on_time_delivery_rate : ℚ
  quality_rating_avg : ℚ
  average_response_time : ℚ
  fulfillment_rate : ℚ
deriving DecidableEq, Repr

/-- Row of the `PurchaseOrder` model: `po_number` is the primary key, `vendor`
is the foreign key (a vendor code); `quality_rating` and
`acknowledgement_date` are nullable. -/
structure PurchaseOrder where
  po_number : String
  vendor : String
  order_date : ℚ
  delivery_date : ℚ
  items : String
  quantity : Int
  status : String
  quality_rating : Option ℚ
  issue_date : ℚ
  acknowledgement_date : Option ℚ
deriving DecidableEq, Repr

/-- Row of the `HistoricalPerformance` model: a timestamped snapshot of a
vendor's four metric fields. -/
structure HistoricalPerformance where
  vendor : String
  date : ℚ
  on_time_delivery_rate : ℚ
  quality_rating_avg : ℚ
  average_response_time : ℚ
  fulfillment_rate : ℚ
deriving DecidableEq, Repr

/-- The persistent store: the three model tables. -/
structure DB where
  vendors : List Vendor
  purchase_orders : List PurchaseOrder
  historical : List HistoricalPerformance
deriving DecidableEq, Repr

/-- An HTTP response: status code and the `message`/`error` string of the
JSON body (for responses whose body is a record dump the string is empty). -/
structure Response where
  status : Nat
  message : String
deriving DecidableEq, Repr

/-- `Vendor.objects.get(pk=code)`. -/
def DB.findVendor (db : DB) (code : String) : Option Vendor :=
  db.vendors.find? (fun w => w.vendor_code == code)

/-- `PurchaseOrder.objects.get(pk=id)`. -/
def DB.findPO (db : DB) (id : String) : Option PurchaseOrder :=
  db.purchase_orders.find? (fun q => q.po_number == id)

/-- `vendor.save()` on a fetched vendor row: replace the row with the same
primary key. -/
def DB.saveVendor (db : DB) (v : Vendor) : DB :=
  { db with vendors :=
      db.vendors.map (fun w => if w.vendor_code == v.vendor_code then v else w) }

/-- `po.save()` on a purchase order: Django keys the UPDATE on the
object's *current* primary key, so when a row with that key exists it is
overwritten, and otherwise the object is inserted as a new row — changing
`po_number` before saving therefore leaves the originally fetched row in
place and creates (or overwrites) the row under the new number. -/
def DB.savePO (db : DB) (po : PurchaseOrder) : DB :=
  if db.purchase_orders.any (fun q => q.po_number == po.po_number) then
    { db with purchase_orders :=
        db.purchase_orders.map (fun q => if q.po_number == po.po_number then po else q) }
  else
    { db with purchase_orders := db.purchase_orders ++ [po] }

/-- Scalar computed by `views.calculate_average_response_time`: filter the
vendor's purchase orders to those with a non-null acknowledgement date, sum
`(acknowledgement_date - issue_date).total_seconds()`, and divide by the
count when it is positive, else 0. -/
def average_response_time_of (db : DB) (code : String) : ℚ :=
  let purchase_orders := db.purchase_orders.filter
    (fun po => po.vendor == code && po.acknowledgement_date.isSome)
  let total_response_time : ℚ :=
    (purchase_orders.map (fun po => po.acknowledgement_date.getD 0 - po.issue_date)).sum
  if purchase_orders.length > 0 then total_response_time / purchase_orders.length else 0

/-- `views.calculate_average_response_time`: compute the average response
time and persist it to the vendor record. -/
def calculate_average_response_time (db : DB) (code : String) : DB :=
  match db.findVendor code with
  | none => db
  | some vendor =>
    db.saveVendor { vendor with average_response_time := average_response_time_of db code }

/-- Scalar computed by `views.quality_rating_calculation`: average
`quality_rating` over the vendor's completed purchase orders; the SQL
`Avg` aggregate skips null ratings and yields null when there is no
non-null value, in which case the stored average is 0. -/
def quality_rating_avg_of (db : DB) (code : String) : ℚ :=
  let completed_purchase_orders := db.purchase_orders.filter
    (fun po => po.vendor == code && po.status == "completed")
  let ratings := completed_purchase_orders.filterMap (fun po => po.quality_rating)
  let average_quality_rating : Option ℚ :=
    if ratings.isEmpty then none else some (ratings.sum / ratings.length)
  average_quality_rating.getD 0

/-- `views.quality_rating_calculation`: compute the quality-rating average
and persist it to the vendor record. -/
def quality_rating_calculation (db : DB) (code : String) : DB :=
  match db.findVendor code with
  | none => db
  | some vendor =>
    db.saveVendor { vendor with quality_rating_avg := quality_rating_avg_of db code }

/-- Scalar computed by `views.fulfillment_rate_calculation`: completed
order count divided by total order count for the vendor, 0 when the vendor
has no orders. -/
def fulfillment_rate_of (db : DB) (code : String) : ℚ :=
  let completed_po_count := (db.purchase_orders.filter
    (fun po => po.vendor == code && po.status == "completed")).length
  let total_po_count := (db.purchase_orders.filter (fun po => po.vendor == code)).length
  if total_po_count ≠ 0 then (completed_po_count : ℚ) / (total_po_count : ℚ) else 0

/-- `views.fulfillment_rate_calculation`: compute the fulfillment rate and
persist it to the vendor record. -/
def fulfillment_rate_calculation (db : DB) (code : String) : DB :=
  match db.findVendor code with
  | none => db
  | some vendor =>
    db.saveVendor { vendor with fulfillment_rate := fulfillment_rate_of db code }

/-- `views.create_historical_record`: append a snapshot of the vendor's four
current metric fields, stamped `now`. -/
def create_historical_record (db : DB) (code : String) (now : ℚ) : DB :=
  match db.findVendor code with
  | none => db
  | some vendor =>
    { db with historical := db.historical ++
        [{ vendor := code, date := now,
           on_time_delivery_rate := vendor.on_time_delivery_rate,
           quality_rating_avg := vendor.quality_rating_avg,
           average_response_time := vendor.average_response_time,
           fulfillment_rate := vendor.fulfillment_rate }] }

/-- JSON body of a `POST /api/vendors/` request: `none` means the key is
absent from the parsed dictionary. -/
structure VendorPostBody where
  name : Option String
  contact_details : Option String
  address : Option String
  vendor_code : Option String
  on_time_delivery_rate : Option ℚ
  quality_rating_avg : Option ℚ
  average_response_time : Option ℚ
  fulfillment_rate : Option ℚ
deriving DecidableEq, Repr

/-- `required_fields` of the vendors POST branch, in source order. -/
def vendor_required_fields : List String :=
  ["name", "contact_details", "address", "vendor_code", "on_time_delivery_rate",
   "quality_rating_avg", "average_response_time", "fulfillment_rate"]

/-- `field in vendor_details` for the keys the POST branch checks. -/
def VendorPostBody.hasField (b : VendorPostBody) : String → Bool
  | "name" => b.name.isSome
  | "contact_details" => b.contact_details.isSome
  | "address" => b.address.isSome
  | "vendor_code" => b.vendor_code.isSome
  | "on_time_delivery_rate" => b.on_time_delivery_rate.isSome
  | "quality_rating_avg" => b.quality_rating_avg.isSome
  | "average_response_time" => b.average_response_time.isSome
  | "fulfillment_rate" => b.fulfillment_rate.isSome
  | _ => false

/-- `missing_fields` of the vendors POST branch. -/
def vendor_missing_fields (b : VendorPostBody) : List String :=
  vendor_required_fields.filter (fun field => !(b.hasField field))

/-- POST branch of `views.vendors`: reject with a 400 that enumerates the
missing required fields; otherwise `Vendor.objects.create` (the `except`
branch surfaces an insert failure, e.g. a duplicate primary key, as a 400
with the raw error text). -/
def vendors_post (db : DB) (b : VendorPostBody) : DB × Response :=
  let missing_fields := vendor_missing_fields b
  if missing_fields ≠ [] then
    (db, ⟨400, "missing fields: " ++ String.intercalate ", " missing_fields⟩)
  else
    match b.name, b.vendor_code with
    | some nm, some code =>
      if (db.findVendor code).isSome then
        (db, ⟨400, "UNIQUE constraint failed: vendors_vendor.vendor_code"⟩)
      else
        ({ db with vendors := db.vendors ++
            [{ vendor_code := code, name := nm,
               contact_details := b.contact_details.getD "",
               address := b.address.getD "",
               on_time_delivery_rate := b.on_time_delivery_rate.getD 0,
               quality_rating_avg := b.quality_rating_avg.getD 0,
               average_response_time := b.average_response_time.getD 0,
               fulfillment_rate := b.fulfillment_rate.getD 0 }] },
         ⟨201, "vendor created"⟩)
    | _, _ => (db, ⟨400, "unreachable: name and vendor_code are required"⟩)

/-- DELETE branch of `views.vendor_data`: 404 on an unknown vendor id, else
delete the vendor (the `CASCADE` foreign keys remove its purchase orders
and historical records) and answer 204. -/
def vendor_data_delete (db : DB) (vendor_id : String) : DB × Response :=
  match db.findVendor vendor_id with
  | none => (db, ⟨404, "invalid vendor id"⟩)
  | some vendor =>
    ({ vendors := db.vendors.eraseP (fun w => w.vendor_code == vendor.vendor_code),
       purchase_orders := db.purchase_orders.filter (fun q => !(q.vendor == vendor.vendor_code)),
       historical := db.historical.filter (fun h => !(h.vendor == vendor.vendor_code)) },
     ⟨204, "vendor deleted"⟩)

/-- JSON body of a `POST /api/purchase_orders/` request: `none` means the
key is absent. -/
structure POPostBody where
  po_number : Option String
  vendor : Option String
  order_date : Option ℚ
  delivery_date : Option ℚ
  items : Option String
  quantity : Option Int
  status : Option String
  quality_rating : Option ℚ
  issue_date : Option ℚ
  acknowledgement_date : Option ℚ
deriving DecidableEq, Repr

/-- `required_fields` of the purchase-orders POST branch, in source order. -/
def po_required_fields : List String :=
  ["po_number", "vendor", "order_date", "delivery_date", "items", "quantity",
   "status", "issue_date"]

/-- `field in po_details` for the keys the POST branch checks. -/
def POPostBody.hasField (b : POPostBody) : String → Bool
  | "po_number" => b.po_number.isSome
  | "vendor" => b.vendor.isSome
  | "order_date" => b.order_date.isSome
  | "delivery_date" => b.delivery_date.isSome
  | "items" => b.items.isSome
  | "quantity" => b.quantity.isSome
  | "status" => b.status.isSome
  | "issue_date" => b.issue_date.isSome
  | _ => false

/-- `missing_fields` of the purchase-orders POST branch. -/
def po_missing_fields (b : POPostBody) : List String :=
  po_required_fields.filter (fun field => !(b.hasField field))

/-- POST branch of `views.purchase_orders`: reject with a 400 enumerating
missing required fields; inside the `try`, `Vendor.objects.get` on an
unknown vendor code raises `DoesNotExist`, caught as a 400 with the raw
error text (not a 404); a successful insert answers 201. -/
def purchase_orders_post (db : DB) (b : POPostBody) : DB × Response :=
  let missing_fields := po_missing_fields b
  if missing_fields ≠ [] then
    (db, ⟨400, "Missing fields: " ++ String.intercalate ", " missing_fields⟩)
  else
    match b.po_number, b.vendor, b.order_date, b.delivery_date, b.items,
          b.quantity, b.status, b.issue_date with
    | some num, some vcode, some odate, some ddate, some its, some qty, some st, some idate =>
      match db.findVendor vcode with
      | none => (db, ⟨400, "Vendor matching query does not exist."⟩)
      | some _ =>
        if (db.findPO num).isSome then
          (db, ⟨400, "UNIQUE constraint failed: vendors_purchaseorder.po_number"⟩)
        else
          ({ db with purchase_orders := db.purchase_orders ++
              [{ po_number := num, vendor := vcode, order_date := odate,
                 delivery_date := ddate, items := its, quantity := qty,
                 status := st, quality_rating := b.quality_rating,
                 issue_date := idate,
                 acknowledgement_date := b.acknowledgement_date }] },
           ⟨201, "purchase order created successfully"⟩)
    | _, _, _, _, _, _, _, _ => (db, ⟨400, "unreachable: required fields are present"⟩)

/-- JSON body of a `PUT /api/purchase_orders/{id}` request: `none` means the
key is absent. -/
structure POPutBody where
  po_number : Option String
  delivery_date : Option ℚ
  order_date : Option ℚ
  items : Option String
  quantity : Option Int
  status : Option String
  quality_rating : Option ℚ
  issue_date : Option ℚ
  acknowledgement_date : Option ℚ
deriving DecidableEq, Repr

/-- Field assignment block of the PUT branch of `views.purchase_order_data`:
every field defaults to its previous value via `get(key, old)`, except
`quality_rating` and `acknowledgement_date`, whose defaults are
`get(key, None)`; the `vendor` foreign key is never assigned. -/
def applyPutBody (b : POPutBody) (po : PurchaseOrder) : PurchaseOrder :=
  { po_number := b.po_number.getD po.po_number
    vendor := po.vendor
    order_date := b.order_date.getD po.order_date
    delivery_date := b.delivery_date.getD po.delivery_date
    items := b.items.getD po.items
    quantity := b.quantity.getD po.quantity
    status := b.status.getD po.status
    quality_rating := b.quality_rating
    issue_date := b.issue_date.getD po.issue_date
    acknowledgement_date := b.acknowledgement_date }

/-- PUT branch of `views.purchase_order_data`: 404 on an unknown id; else
apply the body and save, then, when the saved status is `completed` and the
previous status was not, recompute quality rating and fulfillment rate;
always append one historical snapshot. -/
def purchase_order_data_put (db : DB) (po_id : String) (b : POPutBody) (now : ℚ) :
    DB × Response :=
  match db.findPO po_id with
  | none => (db, ⟨404, "invalid purchase order id"⟩)
  | some po =>
    let prev_status := po.status
    let po2 := applyPutBody b po
    let db1 := db.savePO po2
    let db2 :=
      if prev_status ≠ "completed" ∧ po2.status = "completed" then
        fulfillment_rate_calculation (quality_rating_calculation db1 po.vendor) po.vendor
      else db1
    let db3 := create_historical_record db2 po.vendor now
    (db3, ⟨200, "purchase order updated"⟩)

/-- DELETE branch of `views.purchase_order_data`: 404 on an unknown id; else
remove the order, then recompute average response time, fulfillment rate
and quality rating for its vendor, in that order, and append one
historical snapshot; answer 204. -/
def purchase_order_data_delete (db : DB) (po_id : String) (now : ℚ) : DB × Response :=
  match db.findPO po_id with
  | none => (db, ⟨404, "invalid purchase order id"⟩)
  | some po =>
    let db1 : DB := { db with purchase_orders :=
        db.purchase_orders.eraseP (fun q => q.po_number == po.po_number) }
    let db2 := calculate_average_response_time db1 po.vendor
    let db3 := fulfillment_rate_calculation db2 po.vendor
    let db4 := quality_rating_calculation db3 po.vendor
    let db5 := create_historical_record db4 po.vendor now
    (db5, ⟨204, "purchase order deleted"⟩)

/-- `views.acknowledge_purchase_order`: 404 on an unknown id; when the
acknowledgement date is null, stamp it with the current time, recompute the
vendor's average response time, append one snapshot and answer
"purchase order acknowledged"; otherwise change nothing and answer
"purchase order already acknowledged". -/
def acknowledge_purchase_order (db : DB) (po_id : String) (now : ℚ) : DB × Response :=
  match db.findPO po_id with
  | none => (db, ⟨404, "purchase order not found"⟩)
  | some purchase_order =>
    if purchase_order.acknowledgement_date = none then
      let po2 := { purchase_order with acknowledgement_date := some now }
      let db1 := db.savePO po2
      let db2 := calculate_average_response_time db1 purchase_order.vendor
      let db3 := create_historical_record db2 purchase_order.vendor now
      (db3, ⟨200, "purchase order acknowledged"⟩)
    else
      (db, ⟨200, "purchase order already acknowledged"⟩)

/-! ### Spec-side definitions

The following definitions follow the wording of the specification (§4.1 -
§4.3 and the glossary), to be compared with the scalar functions translated
from the source.  They take the list of the vendor's purchase orders. -/

/-- The purchase orders belonging to vendor `code`. -/
def vendorOrders (db : DB) (code : String) : List PurchaseOrder :=
  db.purchase_orders.filter (fun po => po.vendor == code)

/-- Spec §4.1: among the vendor's orders keep those with a non-null
acknowledgement date, average `acknowledgement_date - issue_date` in
seconds, 0 if there are none. -/
def specAvgResponseTime (orders : List PurchaseOrder) : ℚ :=
  let acked := orders.filter (fun po => po.acknowledgement_date.isSome)
  if acked.isEmpty then 0
  else (acked.map (fun po => po.acknowledgement_date.getD 0 - po.issue_date)).sum / acked.length

/-- Spec §4.2: mean of `quality_rating` over the vendor's completed orders,
null ratings excluded by the aggregate; 0 when no completed order or the
aggregate is null. -/
def specQualityAvg (orders : List PurchaseOrder) : ℚ :=
  let ratings := (orders.filter (fun po => po.status == "completed")).filterMap
    (fun po => po.quality_rating)
  if ratings.isEmpty then 0 else ratings.sum / ratings.length

/-- Spec §4.3 and glossary: completed orders divided by total orders across
all statuses; 0 when the vendor has no orders. -/
def specFulfillmentRate (orders : List PurchaseOrder) : ℚ :=
  if orders.isEmpty then 0
  else ((orders.filter (fun po => po.status == "completed")).length : ℚ) / (orders.length : ℚ)

/-- Number of historical-performance records stored for vendor `code`. -/
def histCount (db : DB) (code : String) : Nat :=
  (db.historical.filter (fun h => h.vendor == code)).length

/-! ### Sequences of mutating purchase-order operations -/

/-- A mutating purchase-order request: PUT update, acknowledge, or DELETE,
with its target id and (for PUT) its body, and the request timestamp. -/
inductive POOp where
  | put (po_id : String) (body : POPutBody) (now : ℚ)
  | ack (po_id : String) (now : ℚ)
  | del (po_id : String) (now : ℚ)
deriving DecidableEq, Repr

/-- The database after serving one mutating purchase-order request. -/
def applyOp (db : DB) : POOp → DB
  | .put id b now => (purchase_order_data_put db id b now).1
  | .ack id now => (acknowledge_purchase_order db id now).1
  | .del id now => (purchase_order_data_delete db id now).1

/-- The database after serving a sequence of mutating purchase-order
requests. -/
def runOps (db : DB) (ops : List POOp) : DB := ops.foldl applyOp db

/-- Whether serving `op` against `db` appends a historical record for
vendor `code`: the target order must exist and belong to that vendor (with
the foreign-key vendor present), and an acknowledge must find a null
acknowledgement date — a repeated acknowledge is a no-op. -/
def opCreatesRecord (db : DB) (code : String) : POOp → Bool
  | .put id _ _ =>
    match db.findPO id with
    | some po => po.vendor == code && (db.findVendor po.vendor).isSome
    | none => false
  | .ack id _ =>
    match db.findPO id with
    | some po => po.vendor == code && po.acknowledgement_date.isNone
        && (db.findVendor po.vendor).isSome
    | none => false
  | .del id _ =>
    match db.findPO id with
    | some po => po.vendor == code && (db.findVendor po.vendor).isSome
    | none => false

/-- How many historical records for vendor `code` a sequence of requests
appends, each one judged against the database state it runs in. -/
def countNewRecords (code : String) : DB → List POOp → Nat
  | _, [] => 0
  | db, op :: ops =>
    (if opCreatesRecord db code op then 1 else 0) + countNewRecords code (applyOp db op) ops

/-! ### Concrete sample data used by witnesses and counterexamples -/

/-- A sample vendor. -/
def exVendor : Vendor :=
  { vendor_code := "V1", name := "Acme", contact_details := "mail", address := "street",
    on_time_delivery_rate := 1, quality_rating_avg := 2, average_response_time := 3,
    fulfillment_rate := 4 }

/-- A sample pending, unacknowledged purchase order of `exVendor`. -/
def exPO : PurchaseOrder :=
  { po_number := "P1", vendor := "V1", order_date := 0, delivery_date := 10,
    items := "itemsA", quantity := 5, status := "pending", quality_rating := none,
    issue_date := 0, acknowledgement_date := none }

/-- A sample database: one vendor, one pending order, no history. -/
def exDB : DB := { vendors := [exVendor], purchase_orders := [exPO], historical := [] }

/-- A vendor with a stale quality-rating average of 99. -/
def staleVendor : Vendor :=
  { vendor_code := "V2", name := "Stale", contact_details := "mail", address := "street",
    on_time_delivery_rate := 1, quality_rating_avg := 99, average_response_time := 0,
    fulfillment_rate := 0 }

/-- A cancelled purchase order of `staleVendor` carrying quality rating 4. -/
def cancelledPO : PurchaseOrder :=
  { po_number := "P2", vendor := "V2", order_date := 0, delivery_date := 10,
    items := "itemsB", quantity := 1, status := "cancelled", quality_rating := some 4,
    issue_date := 0, acknowledgement_date := none }

/-- Database for the cancelled-to-completed experiment. -/
def C2db : DB := { vendors := [staleVendor], purchase_orders := [cancelledPO], historical := [] }

/-- PUT body moving the status to completed and carrying quality rating 4. -/
def C2body : POPutBody :=
  { po_number := none, delivery_date := none, order_date := none, items := none,
    quantity := none, status := some "completed", quality_rating := some 4,
    issue_date := none, acknowledgement_date := none }

/-- A PUT body with every key absent. -/
def noneBody : POPutBody :=
  { po_number := none, delivery_date := none, order_date := none, items := none,
    quantity := none, status := none, quality_rating := none,
    issue_date := none, acknowledgement_date := none }

/-- The empty database. -/
def emptyDB : DB := { vendors := [], purchase_orders := [], historical := [] }

/-- A purchase-order creation body with all required keys present but whose
`vendor` value is an unknown vendor code. -/
def unknownVendorPOBody : POPostBody :=
  { po_number := some "P9", vendor := some "NOPE", order_date := some 0,
    delivery_date := some 1, items := some "itemsC", quantity := some 1,
    status := some "pending", quality_rating := none, issue_date := some 0,
    acknowledgement_date := none }

/-- A vendor creation body with every key absent. -/
def emptyVendorBody : VendorPostBody :=
  { name := none, contact_details := none, address := none, vendor_code := none,
    on_time_delivery_rate := none, quality_rating_avg := none,
    average_response_time := none, fulfillment_rate := none }

/-- A purchase-order creation body with every key absent. -/
def emptyPOBody : POPostBody :=
  { po_number := none, vendor := none, order_date := none, delivery_date := none,
    items := none, quantity := none, status := none, quality_rating := none,
    issue_date := none, acknowledgement_date := none }

/-! ### Generic list lemmas -/

/-- Replacing, in place, exactly the elements that satisfy `p` by a value
that also satisfies `p` makes `find?` return that value whenever a match
exists. -/
theorem find_map_if {α : Type} (p : α → Bool) (a' : α) (h' : p a' = true)
    (l : List α) (h : (l.find? p).isSome) :
    (l.map (fun x => if p x then a' else x)).find? p = some a' := by
  induction l with
  | nil => simp [List.find?] at h
  | cons x t ih =>
    rw [List.map_cons]
    by_cases hx : p x = true
    · rw [if_pos hx]
      exact List.find?_cons_of_pos _ h'
    · rw [if_neg hx]
      rw [List.find?_cons_of_neg _ hx]
      rw [List.find?_cons_of_neg _ hx] at h
      exact ih h

/-- Mapping by a function that preserves the predicate commutes with
`find?` up to mapping the found value. -/
theorem find_map_pointwise {α : Type} (p : α → Bool) (f : α → α)
    (hf : ∀ x, p (f x) = p x) (l : List α) :
    (l.map f).find? p = (l.find? p).map f := by
  induction l with
  | nil => rfl
  | cons x t ih =>
    rw [List.map_cons]
    by_cases hx : p x = true
    · rw [List.find?_cons_of_pos _ (by rw [hf x]; exact hx), List.find?_cons_of_pos _ hx]
      rfl
    · rw [List.find?_cons_of_neg _ (by rw [hf x]; exact hx), List.find?_cons_of_neg _ hx]
      exact ih

/-- A conjunctive filter is the composition of the two filters. -/
theorem filter_split {α : Type} (p q : α → Bool) (l : List α) :
    l.filter (fun a => p a && q a) = (l.filter p).filter q := by
  induction l with
  | nil => rfl
  | cons x t ih =>
    by_cases hp : p x = true <;> by_cases hq : q x = true <;>
      simp [List.filter_cons, hp, hq, ih]

/-- Guard shape shared by the three metric scalars: dividing by a positive
length versus testing emptiness. -/
theorem if_length_pos_eq_if_isEmpty {α : Type} (l : List α) (s : ℚ) :
    (if l.length > 0 then s / (l.length : ℚ) else 0) =
      (if l.isEmpty then 0 else s / (l.length : ℚ)) := by
  cases l <;> simp

/-! ### Frame lemmas for the store operations -/

@[simp] theorem saveVendor_purchase_orders (db : DB) (v : Vendor) :
    (db.saveVendor v).purchase_orders = db.purchase_orders := rfl

@[simp] theorem saveVendor_historical (db : DB) (v : Vendor) :
    (db.saveVendor v).historical = db.historical := rfl

@[simp] theorem savePO_vendors (db : DB) (po : PurchaseOrder) :
    (db.savePO po).vendors = db.vendors := by
  unfold DB.savePO
  split <;> rfl

@[simp] theorem savePO_historical (db : DB) (po : PurchaseOrder) :
    (db.savePO po).historical = db.historical := by
  unfold DB.savePO
  split <;> rfl

@[simp] theorem findVendor_savePO (db : DB) (po : PurchaseOrder) (c : String) :
    (db.savePO po).findVendor c = db.findVendor c := by
  unfold DB.findVendor
  rw [savePO_vendors]

/-- Saving a vendor row rewrites, under `findVendor`, only the found value. -/
theorem findVendor_saveVendor (db : DB) (v : Vendor) (c : String) :
    (db.saveVendor v).findVendor c =
      (db.findVendor c).map (fun w => if w.vendor_code == v.vendor_code then v else w) := by
  unfold DB.saveVendor DB.findVendor
  exact find_map_pointwise _ _ (fun w => by
    by_cases h : (w.vendor_code == v.vendor_code) = true
    · have hw : w.vendor_code = v.vendor_code := by simpa using h
      simp [h, hw]
    · simp [h]) db.vendors

/-- Saving a vendor row does not change which vendor codes resolve. -/
theorem findVendor_saveVendor_isSome (db : DB) (v : Vendor) (c : String) :
    ((db.saveVendor v).findVendor c).isSome = (db.findVendor c).isSome := by
  rw [findVendor_saveVendor]
  cases db.findVendor c <;> rfl

/-- Saving the row of the vendor found under `c` makes `findVendor c`
return it. -/
theorem findVendor_saveVendor_self (db : DB) (v' : Vendor) (c : String)
    (hc : v'.vendor_code = c) (h : (db.findVendor c).isSome) :
    (db.saveVendor v').findVendor c = some v' := by
  subst hc
  unfold DB.saveVendor DB.findVendor at *
  exact find_map_if _ _ (by simp) _ h

/-- Saving a purchase order whose current number already has a row makes
`findPO` under that number return the saved object (the UPDATE branch of
Django `save()`). -/
theorem findPO_savePO_self (db : DB) (po' : PurchaseOrder)
    (h : (db.findPO po'.po_number).isSome) :
    (db.savePO po').findPO po'.po_number = some po' := by
  unfold DB.findPO at *
  have hany : db.purchase_orders.any (fun q => q.po_number == po'.po_number) = true := by
    rw [List.any_eq_true]
    obtain ⟨q, hq1, hq2⟩ := List.find?_isSome.mp h
    exact ⟨q, hq1, hq2⟩
  unfold DB.savePO
  rw [if_pos hany]
  exact find_map_if _ _ (by simp) _ h

/-- The vendor row found under `c` carries `c` as its code. -/
theorem findVendor_code (db : DB) (c : String) (v : Vendor)
    (h : db.findVendor c = some v) : v.vendor_code = c := by
  have := List.find?_some h
  simpa using this

/-- The purchase-order row found under `id` carries `id` as its number. -/
theorem findPO_number (db : DB) (id : String) (po : PurchaseOrder)
    (h : db.findPO id = some po) : po.po_number = id := by
  have := List.find?_some h
  simpa using this

/-! ### Frame lemmas for the metric functions and the snapshot -/

@[simp] theorem calc_avg_purchase_orders (db : DB) (c : String) :
    (calculate_average_response_time db c).purchase_orders = db.purchase_orders := by
  unfold calculate_average_response_time
  cases db.findVendor c <;> rfl

@[simp] theorem calc_avg_historical (db : DB) (c : String) :
    (calculate_average_response_time db c).historical = db.historical := by
  unfold calculate_average_response_time
  cases db.findVendor c <;> rfl

@[simp] theorem quality_purchase_orders (db : DB) (c : String) :
    (quality_rating_calculation db c).purchase_orders = db.purchase_orders := by
  unfold quality_rating_calculation
  cases db.findVendor c <;> rfl

@[simp] theorem quality_historical (db : DB) (c : String) :
    (quality_rating_calculation db c).historical = db.historical := by
  unfold quality_rating_calculation
  cases db.findVendor c <;> rfl

@[simp] theorem fulfill_purchase_orders (db : DB) (c : String) :
    (fulfillment_rate_calculation db c).purchase_orders = db.purchase_orders := by
  unfold fulfillment_rate_calculation
  cases db.findVendor c <;> rfl

@[simp] theorem fulfill_historical (db : DB) (c : String) :
    (fulfillment_rate_calculation db c).historical = db.historical := by
  unfold fulfillment_rate_calculation
  cases db.findVendor c <;> rfl

@[simp] theorem create_historical_vendors (db : DB) (code : String) (now : ℚ) :
    (create_historical_record db code now).vendors = db.vendors := by
  unfold create_historical_record
  cases db.findVendor code <;> rfl

@[simp] theorem create_historical_purchase_orders (db : DB) (code : String) (now : ℚ) :
    (create_historical_record db code now).purchase_orders = db.purchase_orders := by
  unfold create_historical_record
  cases db.findVendor code <;> rfl

@[simp] theorem findVendor_create_historical (db : DB) (code : String) (now : ℚ) (c : String) :
    (create_historical_record db code now).findVendor c = db.findVendor c := by
  unfold create_historical_record
  cases db.findVendor code <;> rfl

@[simp] theorem findPO_create_historical (db : DB) (code : String) (now : ℚ) (id : String) :
    (create_historical_record db code now).findPO id = db.findPO id := by
  unfold create_historical_record
  cases db.findVendor code <;> rfl

@[simp] theorem findPO_calc_avg (db : DB) (c : String) (id : String) :
    (calculate_average_response_time db c).findPO id = db.findPO id := by
  unfold calculate_average_response_time
  cases db.findVendor c <;> rfl

@[simp] theorem findPO_quality (db : DB) (c : String) (id : String) :
    (quality_rating_calculation db c).findPO id = db.findPO id := by
  unfold quality_rating_calculation
  cases db.findVendor c <;> rfl

@[simp] theorem findPO_fulfill (db : DB) (c : String) (id : String) :
    (fulfillment_rate_calculation db c).findPO id = db.findPO id := by
  unfold fulfillment_rate_calculation
  cases db.findVendor c <;> rfl

theorem findVendor_calc_avg_isSome (db : DB) (code c : String) :
    ((calculate_average_response_time db code).findVendor c).isSome =
      (db.findVendor c).isSome := by
  unfold calculate_average_response_time
  cases db.findVendor code
  · rfl
  · exact findVendor_saveVendor_isSome _ _ _

theorem findVendor_quality_isSome (db : DB) (code c : String) :
    ((quality_rating_calculation db code).findVendor c).isSome =
      (db.findVendor c).isSome := by
  unfold quality_rating_calculation
  cases db.findVendor code
  · rfl
  · exact findVendor_saveVendor_isSome _ _ _

theorem findVendor_fulfill_isSome (db : DB) (code c : String) :
    ((fulfillment_rate_calculation db code).findVendor c).isSome =
      (db.findVendor c).isSome := by
  unfold fulfillment_rate_calculation
  cases db.findVendor code
  · rfl
  · exact findVendor_saveVendor_isSome _ _ _

/-! ### The three source scalars equal their spec-side definitions -/

/-- The source's average response time is the spec's: the mean, over the
vendor's acknowledged orders, of acknowledgement minus issue date. -/
theorem average_response_time_of_eq_spec (db : DB) (code : String) :
    average_response_time_of db code = specAvgResponseTime (vendorOrders db code) := by
  simp only [average_response_time_of, specAvgResponseTime, vendorOrders]
  rw [filter_split (fun po : PurchaseOrder => po.vendor == code) (fun po : PurchaseOrder => po.acknowledgement_date.isSome)]
  exact if_length_pos_eq_if_isEmpty _ _

/-- The source's quality-rating average is the spec's: the mean of the
non-null ratings of the vendor's completed orders, 0 when there are none. -/
theorem quality_rating_avg_of_eq_spec (db : DB) (code : String) :
    quality_rating_avg_of db code = specQualityAvg (vendorOrders db code) := by
  simp only [quality_rating_avg_of, specQualityAvg, vendorOrders]
  rw [filter_split (fun po : PurchaseOrder => po.vendor == code) (fun po : PurchaseOrder => po.status == "completed")]
  cases ((db.purchase_orders.filter (fun po => po.vendor == code)).filter
      (fun po => po.status == "completed")).filterMap (fun po => po.quality_rating) <;> simp

/-- The source's fulfillment rate is the spec's: completed over total
orders of the vendor, 0 when the vendor has none. -/
theorem fulfillment_rate_of_eq_spec (db : DB) (code : String) :
    fulfillment_rate_of db code = specFulfillmentRate (vendorOrders db code) := by
  simp only [fulfillment_rate_of, specFulfillmentRate, vendorOrders]
  rw [filter_split (fun po : PurchaseOrder => po.vendor == code) (fun po : PurchaseOrder => po.status == "completed")]
  cases db.purchase_orders.filter (fun po => po.vendor == code) <;> simp

/-! ### Historical-record accounting -/

@[simp] theorem histCount_saveVendor (db : DB) (v : Vendor) (c : String) :
    histCount (db.saveVendor v) c = histCount db c := rfl

@[simp] theorem histCount_savePO (db : DB) (po : PurchaseOrder) (c : String) :
    histCount (db.savePO po) c = histCount db c := by
  unfold histCount
  rw [savePO_historical]

@[simp] theorem histCount_calc_avg (db : DB) (code c : String) :
    histCount (calculate_average_response_time db code) c = histCount db c := by
  unfold histCount
  rw [calc_avg_historical]

@[simp] theorem histCount_quality (db : DB) (code c : String) :
    histCount (quality_rating_calculation db code) c = histCount db c := by
  unfold histCount
  rw [quality_historical]

@[simp] theorem histCount_fulfill (db : DB) (code c : String) :
    histCount (fulfillment_rate_calculation db code) c = histCount db c := by
  unfold histCount
  rw [fulfill_historical]

/-- Appending a snapshot for `code` raises the count for `c` by one exactly
when the vendor exists and `code = c`. -/
theorem histCount_create_historical (db : DB) (code : String) (now : ℚ) (c : String) :
    histCount (create_historical_record db code now) c =
      histCount db c + (if (db.findVendor code).isSome ∧ code = c then 1 else 0) := by
  unfold create_historical_record
  cases hv : db.findVendor code
  · simp [histCount]
  · by_cases hc : code = c
    · subst hc
      simp [histCount, List.filter_append]
    · simp [histCount, List.filter_append, hc]

/-- The existing history is a prefix of the history after a snapshot. -/
theorem historical_create_grows (db : DB) (code : String) (now : ℚ) :
    db.historical <+: (create_historical_record db code now).historical := by
  unfold create_historical_record
  cases db.findVendor code
  · exact List.prefix_refl _
  · exact List.prefix_append _ _

/-- A PUT request only ever appends to the history. -/
theorem historical_put_grows (db : DB) (id : String) (b : POPutBody) (now : ℚ) :
    db.historical <+: ((purchase_order_data_put db id b now).1).historical := by
  unfold purchase_order_data_put
  cases hpo : db.findPO id with
  | none => exact List.prefix_refl _
  | some po =>
    refine List.IsPrefix.trans ?_ (historical_create_grows _ _ _)
    split <;> simp [List.prefix_refl]

/-- An acknowledge request only ever appends to the history. -/
theorem historical_ack_grows (db : DB) (id : String) (now : ℚ) :
    db.historical <+: ((acknowledge_purchase_order db id now).1).historical := by
  unfold acknowledge_purchase_order
  cases hpo : db.findPO id with
  | none => exact List.prefix_refl _
  | some po =>
    dsimp only
    by_cases hack : po.acknowledgement_date = none
    · rw [if_pos hack]
      refine List.IsPrefix.trans ?_ (historical_create_grows _ _ _)
      simp [List.prefix_refl]
    · rw [if_neg hack]

/-- A DELETE request only ever appends to the history. -/
theorem historical_del_grows (db : DB) (id : String) (now : ℚ) :
    db.historical <+: ((purchase_order_data_delete db id now).1).historical := by
  unfold purchase_order_data_delete
  cases hpo : db.findPO id with
  | none => exact List.prefix_refl _
  | some po =>
    refine List.IsPrefix.trans ?_ (historical_create_grows _ _ _)
    simp [List.prefix_refl]

/-- Any mutating purchase-order request only ever appends to the history. -/
theorem historical_applyOp_grows (db : DB) (op : POOp) :
    db.historical <+: (applyOp db op).historical := by
  cases op with
  | put id b now => exact historical_put_grows db id b now
  | ack id now => exact historical_ack_grows db id now
  | del id now => exact historical_del_grows db id now

/-- A sequence of mutating requests only ever appends to the history. -/
theorem historical_runOps_grows (db : DB) (ops : List POOp) :
    db.historical <+: (runOps db ops).historical := by
  induction ops generalizing db with
  | nil => exact List.prefix_refl _
  | cons op ops ih =>
    exact List.IsPrefix.trans (historical_applyOp_grows db op) (ih (applyOp db op))

@[simp] theorem histCount_set_purchase_orders (db : DB) (l : List PurchaseOrder) (c : String) :
    histCount { db with purchase_orders := l } c = histCount db c := rfl

@[simp] theorem findVendor_set_purchase_orders (db : DB) (l : List PurchaseOrder) (c : String) :
    DB.findVendor { db with purchase_orders := l } c = db.findVendor c := rfl

/-- Reconciliation of the snapshot guard with the record-creation
predicate. -/
theorem if_vendor_match (o : Option Vendor) (pv c : String) :
    (if o.isSome ∧ pv = c then 1 else 0) =
      (if (pv == c && o.isSome) = true then 1 else 0) := by
  by_cases h1 : pv = c <;> by_cases h2 : o.isSome = true <;> simp [h1, h2]

/-- Variant of `if_vendor_match` for the acknowledge branch, which also
tests that the acknowledgement date is null. -/
theorem if_vendor_match_ack (o : Option Vendor) (a : Option ℚ) (pv c : String)
    (ha : a = none) :
    (if o.isSome ∧ pv = c then 1 else 0) =
      (if (pv == c && a.isNone && o.isSome) = true then 1 else 0) := by
  subst ha
  by_cases h1 : pv = c <;> by_cases h2 : o.isSome = true <;> simp [h1, h2]

/-- A PUT appends one record for the order's vendor when the order exists
(and the vendor row resolves), none otherwise. -/
theorem histCount_put (db : DB) (id : String) (b : POPutBody) (now : ℚ) (c : String) :
    histCount ((purchase_order_data_put db id b now).1) c =
      histCount db c + (if opCreatesRecord db c (.put id b now) then 1 else 0) := by
  unfold purchase_order_data_put opCreatesRecord
  cases hpo : db.findPO id with
  | none => simp [hpo]
  | some po =>
    dsimp only
    by_cases hcond : po.status ≠ "completed" ∧ (applyPutBody b po).status = "completed"
    · rw [if_pos hcond, histCount_create_historical]
      simp only [hpo, histCount_fulfill, histCount_quality, histCount_savePO,
        findVendor_fulfill_isSome, findVendor_quality_isSome, findVendor_savePO]
      rw [if_vendor_match]
    · rw [if_neg hcond, histCount_create_historical]
      simp only [hpo, histCount_savePO, findVendor_savePO]
      rw [if_vendor_match]

/-- A first-time acknowledge appends one record for the order's vendor; an
acknowledge of an already-acknowledged order appends none. -/
theorem histCount_ack (db : DB) (id : String) (now : ℚ) (c : String) :
    histCount ((acknowledge_purchase_order db id now).1) c =
      histCount db c + (if opCreatesRecord db c (.ack id now) then 1 else 0) := by
  unfold acknowledge_purchase_order opCreatesRecord
  cases hpo : db.findPO id with
  | none => simp [hpo]
  | some po =>
    dsimp only
    by_cases hack : po.acknowledgement_date = none
    · rw [if_pos hack, histCount_create_historical]
      simp only [hpo, histCount_calc_avg, histCount_savePO,
        findVendor_calc_avg_isSome, findVendor_savePO]
      rw [if_vendor_match_ack (db.findVendor po.vendor) po.acknowledgement_date
        po.vendor c hack]
    · rw [if_neg hack]
      have hnone : po.acknowledgement_date.isNone = false := by
        cases h : po.acknowledgement_date
        · exact absurd h hack
        · rfl
      simp [hpo, hnone]

/-- A DELETE of an existing order appends one record for its vendor. -/
theorem histCount_del (db : DB) (id : String) (now : ℚ) (c : String) :
    histCount ((purchase_order_data_delete db id now).1) c =
      histCount db c + (if opCreatesRecord db c (.del id now) then 1 else 0) := by
  unfold purchase_order_data_delete opCreatesRecord
  cases hpo : db.findPO id with
  | none => simp [hpo]
  | some po =>
    dsimp only
    rw [histCount_create_historical]
    simp only [hpo, histCount_quality, histCount_fulfill, histCount_calc_avg,
      findVendor_quality_isSome, findVendor_fulfill_isSome, findVendor_calc_avg_isSome,
      histCount_set_purchase_orders, findVendor_set_purchase_orders]
    rw [if_vendor_match]

/-- One mutating request appends exactly `opCreatesRecord` records for each
vendor. -/
theorem histCount_applyOp (db : DB) (c : String) (op : POOp) :
    histCount (applyOp db op) c =
      histCount db c + (if opCreatesRecord db c op then 1 else 0) := by
  cases op with
  | put id b now => exact histCount_put db id b now c
  | ack id now => exact histCount_ack db id now c
  | del id now => exact histCount_del db id now c

/-- Record count after a sequence of mutating requests. -/
theorem histCount_runOps (db : DB) (c : String) (ops : List POOp) :
    histCount (runOps db ops) c = histCount db c + countNewRecords c db ops := by
  induction ops generalizing db with
  | nil => simp [runOps, countNewRecords]
  | cons op ops ih =>
    show histCount (runOps (applyOp db op) ops) c = _
    rw [ih, histCount_applyOp]
    rw [show countNewRecords c db (op :: ops) =
      (if opCreatesRecord db c op then 1 else 0) +
        countNewRecords c (applyOp db op) ops from rfl]
    omega

/-! ### Pointwise characterizations of the metric functions -/

/-- When the vendor resolves, `calculate_average_response_time` saves the
updated row. -/
theorem calc_avg_found (db : DB) (code : String) (v : Vendor)
    (hv : db.findVendor code = some v) :
    calculate_average_response_time db code =
      db.saveVendor { v with average_response_time := average_response_time_of db code } := by
  unfold calculate_average_response_time
  rw [hv]

/-- When the vendor resolves, `quality_rating_calculation` saves the
updated row. -/
theorem quality_found (db : DB) (code : String) (v : Vendor)
    (hv : db.findVendor code = some v) :
    quality_rating_calculation db code =
      db.saveVendor { v with quality_rating_avg := quality_rating_avg_of db code } := by
  unfold quality_rating_calculation
  rw [hv]

/-- When the vendor resolves, `fulfillment_rate_calculation` saves the
updated row. -/
theorem fulfill_found (db : DB) (code : String) (v : Vendor)
    (hv : db.findVendor code = some v) :
    fulfillment_rate_calculation db code =
      db.saveVendor { v with fulfillment_rate := fulfillment_rate_of db code } := by
  unfold fulfillment_rate_calculation
  rw [hv]

/-- When the vendor resolves, the snapshot appends exactly one record
carrying the vendor's code. -/
theorem create_historical_append (db : DB) (code : String) (now : ℚ)
    (h : (db.findVendor code).isSome) :
    ∃ rec, (create_historical_record db code now).historical = db.historical ++ [rec] ∧
      rec.vendor = code := by
  unfold create_historical_record
  cases hv : db.findVendor code
  · rw [hv] at h
    exact absurd h (by simp)
  · exact ⟨_, rfl, rfl⟩

/-- Full characterization of the PUT branch of `purchase_order_data` on an
existing order whose vendor resolves: the response, the saved order list,
the appended snapshot, and the owning vendor's row in both the
status-edge-triggered and untriggered cases. -/
theorem put_state (db : DB) (id : String) (b : POPutBody) (now : ℚ)
    (po : PurchaseOrder) (v : Vendor)
    (hpo : db.findPO id = some po) (hv : db.findVendor po.vendor = some v) :
    (purchase_order_data_put db id b now).2 = ⟨200, "purchase order updated"⟩ ∧
    ((purchase_order_data_put db id b now).1).purchase_orders =
      (db.savePO (applyPutBody b po)).purchase_orders ∧
    (∃ rec, ((purchase_order_data_put db id b now).1).historical = db.historical ++ [rec] ∧
      rec.vendor = po.vendor) ∧
    ((po.status ≠ "completed" ∧ (applyPutBody b po).status = "completed") →
      ∃ v2, ((purchase_order_data_put db id b now).1).findVendor po.vendor = some v2 ∧
        v2.quality_rating_avg =
          specQualityAvg (vendorOrders (db.savePO (applyPutBody b po)) po.vendor) ∧
        v2.fulfillment_rate =
          specFulfillmentRate (vendorOrders (db.savePO (applyPutBody b po)) po.vendor) ∧
        v2.average_response_time = v.average_response_time) ∧
    (¬(po.status ≠ "completed" ∧ (applyPutBody b po).status = "completed") →
      ((purchase_order_data_put db id b now).1).findVendor po.vendor = some v) := by
  have hc : v.vendor_code = po.vendor := findVendor_code _ _ _ hv
  unfold purchase_order_data_put
  rw [hpo]
  dsimp only
  by_cases hcond : po.status ≠ "completed" ∧ (applyPutBody b po).status = "completed"
  · rw [if_pos hcond]
    set po2 := applyPutBody b po with hpo2
    set db1 := db.savePO po2 with hdb1
    have hv1 : db1.findVendor po.vendor = some v := by
      rw [hdb1, findVendor_savePO]
      exact hv
    rw [quality_found db1 po.vendor v hv1]
    set v1 : Vendor :=
      { v with quality_rating_avg := quality_rating_avg_of db1 po.vendor } with hv1def
    have hfv1 : (db1.saveVendor v1).findVendor po.vendor = some v1 :=
      findVendor_saveVendor_self db1 v1 po.vendor hc (by rw [hv1]; rfl)
    rw [fulfill_found (db1.saveVendor v1) po.vendor v1 hfv1]
    set v2 : Vendor :=
      { v1 with fulfillment_rate := fulfillment_rate_of (db1.saveVendor v1) po.vendor }
      with hv2def
    have hfv2 : ((db1.saveVendor v1).saveVendor v2).findVendor po.vendor = some v2 :=
      findVendor_saveVendor_self _ v2 po.vendor hc (by rw [hfv1]; rfl)
    refine ⟨rfl, by simp, ?_, ?_, ?_⟩
    · obtain ⟨rec, hrec, hrecv⟩ :=
        create_historical_append ((db1.saveVendor v1).saveVendor v2) po.vendor now
          (by rw [hfv2]; rfl)
      refine ⟨rec, ?_, hrecv⟩
      rw [hrec, saveVendor_historical, saveVendor_historical, hdb1, savePO_historical]
    · intro _
      refine ⟨v2, ?_, ?_, ?_, ?_⟩
      · simp only [findVendor_create_historical]
        exact hfv2
      · exact quality_rating_avg_of_eq_spec db1 po.vendor
      · exact fulfillment_rate_of_eq_spec (db1.saveVendor v1) po.vendor
      · rfl
    · intro hn
      exact absurd hcond hn
  · rw [if_neg hcond]
    refine ⟨rfl, by simp, ?_, ?_, ?_⟩
    · obtain ⟨rec, hrec, hrecv⟩ :=
        create_historical_append (db.savePO (applyPutBody b po)) po.vendor now
          (by rw [findVendor_savePO, hv]; rfl)
      refine ⟨rec, ?_, hrecv⟩
      rw [hrec, savePO_historical]
    · intro h
      exact absurd h hcond
    · intro _
      simp only [findVendor_create_historical, findVendor_savePO]
      exact hv

@[simp] theorem findPO_saveVendor (db : DB) (v : Vendor) (id : String) :
    (db.saveVendor v).findPO id = db.findPO id := rfl

/-- Acknowledging an order that already has an acknowledgement date is a
no-op with the distinct message. -/
theorem ack_noop (db : DB) (id : String) (now : ℚ) (po : PurchaseOrder)
    (hpo : db.findPO id = some po) (hack : po.acknowledgement_date ≠ none) :
    acknowledge_purchase_order db id now =
      (db, ⟨200, "purchase order already acknowledged"⟩) := by
  unfold acknowledge_purchase_order
  rw [hpo]
  dsimp only
  rw [if_neg hack]

/-- Full characterization of the acknowledge endpoint on an existing order
whose vendor resolves. -/
theorem ack_state (db : DB) (id : String) (now : ℚ) (po : PurchaseOrder) (v : Vendor)
    (hpo : db.findPO id = some po) (hv : db.findVendor po.vendor = some v)
    (hack : po.acknowledgement_date = none) :
    (acknowledge_purchase_order db id now).2 = ⟨200, "purchase order acknowledged"⟩ ∧
    ((acknowledge_purchase_order db id now).1).findPO id =
      some { po with acknowledgement_date := some now } ∧
    (∃ v2, ((acknowledge_purchase_order db id now).1).findVendor po.vendor = some v2 ∧
      v2.average_response_time =
        specAvgResponseTime
          (vendorOrders ((acknowledge_purchase_order db id now).1) po.vendor) ∧
      v2.quality_rating_avg = v.quality_rating_avg ∧
      v2.fulfillment_rate = v.fulfillment_rate) ∧
    (∃ rec, ((acknowledge_purchase_order db id now).1).historical = db.historical ++ [rec] ∧
      rec.vendor = po.vendor) := by
  have hc : v.vendor_code = po.vendor := findVendor_code _ _ _ hv
  have hn : po.po_number = id := findPO_number _ _ _ hpo
  unfold acknowledge_purchase_order
  rw [hpo]
  dsimp only
  rw [if_pos hack]
  set po2 := { po with acknowledgement_date := some now } with hpo2
  set db1 := db.savePO po2 with hdb1
  have hv1 : db1.findVendor po.vendor = some v := by
    rw [hdb1, findVendor_savePO]
    exact hv
  rw [calc_avg_found db1 po.vendor v hv1]
  set v1 : Vendor :=
    { v with average_response_time := average_response_time_of db1 po.vendor } with hv1d
  have hfv1 : (db1.saveVendor v1).findVendor po.vendor = some v1 :=
    findVendor_saveVendor_self db1 v1 po.vendor hc (by rw [hv1]; rfl)
  refine ⟨rfl, ?_, ?_, ?_⟩
  · simp only [findPO_create_historical, findPO_saveVendor]
    rw [hdb1, ← hn]
    exact findPO_savePO_self db po2
      (by show (db.findPO po.po_number).isSome = true; rw [hn, hpo]; rfl)
  · refine ⟨v1, ?_, ?_, ?_, ?_⟩
    · simp only [findVendor_create_historical]
      exact hfv1
    · dsimp only
      simp only [vendorOrders, create_historical_purchase_orders, saveVendor_purchase_orders]
      exact average_response_time_of_eq_spec db1 po.vendor
    · rfl
    · rfl
  · obtain ⟨rec, hrec, hrecv⟩ :=
      create_historical_append (db1.saveVendor v1) po.vendor now (by rw [hfv1]; rfl)
    refine ⟨rec, ?_, hrecv⟩
    rw [hrec, saveVendor_historical, hdb1, savePO_historical]

/-- Full characterization of the DELETE branch of `purchase_order_data` on
an existing order whose vendor resolves. -/
theorem delete_state (db : DB) (id : String) (now : ℚ) (po : PurchaseOrder) (v : Vendor)
    (hpo : db.findPO id = some po) (hv : db.findVendor po.vendor = some v) :
    (purchase_order_data_delete db id now).2 = ⟨204, "purchase order deleted"⟩ ∧
    ((purchase_order_data_delete db id now).1).purchase_orders =
      db.purchase_orders.eraseP (fun q => q.po_number == po.po_number) ∧
    (∃ v2, ((purchase_order_data_delete db id now).1).findVendor po.vendor = some v2 ∧
      v2.average_response_time =
        specAvgResponseTime
          (vendorOrders ((purchase_order_data_delete db id now).1) po.vendor) ∧
      v2.fulfillment_rate =
        specFulfillmentRate
          (vendorOrders ((purchase_order_data_delete db id now).1) po.vendor) ∧
      v2.quality_rating_avg =
        specQualityAvg
          (vendorOrders ((purchase_order_data_delete db id now).1) po.vendor)) ∧
    (∃ rec, ((purchase_order_data_delete db id now).1).historical = db.historical ++ [rec] ∧
      rec.vendor = po.vendor) := by
  have hc : v.vendor_code = po.vendor := findVendor_code _ _ _ hv
  have hvS : (db.findVendor po.vendor).isSome = true := by rw [hv]; rfl
  unfold purchase_order_data_delete
  rw [hpo]
  dsimp only
  set dbE : DB :=
    { db with purchase_orders :=
        db.purchase_orders.eraseP (fun q => q.po_number == po.po_number) } with hdbE
  have hvE : dbE.findVendor po.vendor = some v := hv
  rw [calc_avg_found dbE po.vendor v hvE]
  set vA : Vendor :=
    { v with average_response_time := average_response_time_of dbE po.vendor } with hvA
  have hf1 : (dbE.saveVendor vA).findVendor po.vendor = some vA :=
    findVendor_saveVendor_self dbE vA po.vendor hc hvS
  rw [fulfill_found (dbE.saveVendor vA) po.vendor vA hf1]
  set vB : Vendor :=
    { vA with fulfillment_rate := fulfillment_rate_of (dbE.saveVendor vA) po.vendor } with hvB
  have hf2 : ((dbE.saveVendor vA).saveVendor vB).findVendor po.vendor = some vB :=
    findVendor_saveVendor_self _ vB po.vendor hc (by rw [hf1]; rfl)
  rw [quality_found ((dbE.saveVendor vA).saveVendor vB) po.vendor vB hf2]
  set vC : Vendor :=
    { vB with quality_rating_avg :=
        quality_rating_avg_of ((dbE.saveVendor vA).saveVendor vB) po.vendor } with hvC
  have hf3 : (((dbE.saveVendor vA).saveVendor vB).saveVendor vC).findVendor po.vendor =
      some vC :=
    findVendor_saveVendor_self _ vC po.vendor hc (by rw [hf2]; rfl)
  refine ⟨rfl, by simp [hdbE], ?_, ?_⟩
  · refine ⟨vC, ?_, ?_, ?_, ?_⟩
    · simp only [findVendor_create_historical]
      exact hf3
    · dsimp only
      simp only [vendorOrders, create_historical_purchase_orders, saveVendor_purchase_orders]
      exact average_response_time_of_eq_spec dbE po.vendor
    · dsimp only
      simp only [vendorOrders, create_historical_purchase_orders, saveVendor_purchase_orders]
      exact fulfillment_rate_of_eq_spec (dbE.saveVendor vA) po.vendor
    · dsimp only
      simp only [vendorOrders, create_historical_purchase_orders, saveVendor_purchase_orders]
      exact quality_rating_avg_of_eq_spec ((dbE.saveVendor vA).saveVendor vB) po.vendor
  · refine create_historical_append _ _ _ ?_
    rw [hf3]
    rfl

/-! ### Claim theorems -/

/-- C5: `calculate_average_response_time` sets the vendor's
`average_response_time` to the exact mean of `acknowledgement_date -
issue_date` in seconds over exactly the vendor's purchase orders with a
non-null acknowledgement date (0 when there are none), persists it to the
vendor record, and changes nothing else. -/
theorem C5_average_response_time_calc (db : DB) (code : String) (v : Vendor)
    (hv : db.findVendor code = some v) :
    (calculate_average_response_time db code).findVendor code =
      some { v with average_response_time := specAvgResponseTime (vendorOrders db code) } ∧
    (calculate_average_response_time db code).purchase_orders = db.purchase_orders ∧
    (calculate_average_response_time db code).historical = db.historical := by
  refine ⟨?_, calc_avg_purchase_orders db code, calc_avg_historical db code⟩
  rw [calc_avg_found db code v hv, ← average_response_time_of_eq_spec]
  exact findVendor_saveVendor_self db _ code (findVendor_code db code v hv) (by rw [hv]; rfl)

/-- Witness for C5 at a concrete database. -/
theorem C5_witness :
    exDB.findVendor "V1" = some exVendor ∧
    ((calculate_average_response_time exDB "V1").findVendor "V1" =
        some { exVendor with
          average_response_time := specAvgResponseTime (vendorOrders exDB "V1") } ∧
      (calculate_average_response_time exDB "V1").purchase_orders = exDB.purchase_orders ∧
      (calculate_average_response_time exDB "V1").historical = exDB.historical) :=
  ⟨rfl, C5_average_response_time_calc exDB "V1" exVendor rfl⟩

/-- C6: `quality_rating_calculation` sets the vendor's `quality_rating_avg`
to the mean of `quality_rating` over the vendor's completed purchase
orders, null ratings excluded by the aggregate, and 0 when the vendor has
no completed order or the aggregate is null; it persists the value and
changes nothing else. -/
theorem C6_quality_rating_calc (db : DB) (code : String) (v : Vendor)
    (hv : db.findVendor code = some v) :
    (quality_rating_calculation db code).findVendor code =
      some { v with quality_rating_avg := specQualityAvg (vendorOrders db code) } ∧
    (quality_rating_calculation db code).purchase_orders = db.purchase_orders ∧
    (quality_rating_calculation db code).historical = db.historical := by
  refine ⟨?_, quality_purchase_orders db code, quality_historical db code⟩
  rw [quality_found db code v hv, ← quality_rating_avg_of_eq_spec]
  exact findVendor_saveVendor_self db _ code (findVendor_code db code v hv) (by rw [hv]; rfl)

/-- Witness for C6 at a concrete database. -/
theorem C6_witness :
    exDB.findVendor "V1" = some exVendor ∧
    ((quality_rating_calculation exDB "V1").findVendor "V1" =
        some { exVendor with
          quality_rating_avg := specQualityAvg (vendorOrders exDB "V1") } ∧
      (quality_rating_calculation exDB "V1").purchase_orders = exDB.purchase_orders ∧
      (quality_rating_calculation exDB "V1").historical = exDB.historical) :=
  ⟨rfl, C6_quality_rating_calc exDB "V1" exVendor rfl⟩

/-- C7: `fulfillment_rate_calculation` sets the vendor's `fulfillment_rate`
to the count of the vendor's completed purchase orders divided by the
count of all of the vendor's purchase orders across all statuses, 0 when
the vendor has no purchase orders; it persists the value and changes
nothing else. -/
theorem C7_fulfillment_rate_calc (db : DB) (code : String) (v : Vendor)
    (hv : db.findVendor code = some v) :
    (fulfillment_rate_calculation db code).findVendor code =
      some { v with fulfillment_rate := specFulfillmentRate (vendorOrders db code) } ∧
    (fulfillment_rate_calculation db code).purchase_orders = db.purchase_orders ∧
    (fulfillment_rate_calculation db code).historical = db.historical := by
  refine ⟨?_, fulfill_purchase_orders db code, fulfill_historical db code⟩
  rw [fulfill_found db code v hv, ← fulfillment_rate_of_eq_spec]
  exact findVendor_saveVendor_self db _ code (findVendor_code db code v hv) (by rw [hv]; rfl)

/-- Witness for C7 at a concrete database. -/
theorem C7_witness :
    exDB.findVendor "V1" = some exVendor ∧
    ((fulfillment_rate_calculation exDB "V1").findVendor "V1" =
        some { exVendor with
          fulfillment_rate := specFulfillmentRate (vendorOrders exDB "V1") } ∧
      (fulfillment_rate_calculation exDB "V1").purchase_orders = exDB.purchase_orders ∧
      (fulfillment_rate_calculation exDB "V1").historical = exDB.historical) :=
  ⟨rfl, C7_fulfillment_rate_calc exDB "V1" exVendor rfl⟩

/-- C1: on a PUT to an existing purchase order, if the stored status was
not `completed` and the status after applying the body is `completed`,
then the owning vendor's quality-rating average and fulfillment rate are
recomputed against the updated order set while `average_response_time`
keeps its previous value; and regardless of the status change, exactly one
new historical record for that vendor is appended by the request. -/
theorem C1_put_trigger_and_snapshot (db : DB) (id : String) (b : POPutBody) (now : ℚ)
    (po : PurchaseOrder) (v : Vendor)
    (hpo : db.findPO id = some po) (hv : db.findVendor po.vendor = some v) :
    (po.status ≠ "completed" → (applyPutBody b po).status = "completed" →
      ∃ v2, ((purchase_order_data_put db id b now).1).findVendor po.vendor = some v2 ∧
        v2.quality_rating_avg =
          specQualityAvg (vendorOrders ((purchase_order_data_put db id b now).1) po.vendor) ∧
        v2.fulfillment_rate =
          specFulfillmentRate
            (vendorOrders ((purchase_order_data_put db id b now).1) po.vendor) ∧
        v2.average_response_time = v.average_response_time) ∧
    (∃ rec, ((purchase_order_data_put db id b now).1).historical = db.historical ++ [rec] ∧
      rec.vendor = po.vendor) := by
  obtain ⟨-, hlist, hsnap, htrig, -⟩ := put_state db id b now po v hpo hv
  have horders : vendorOrders ((purchase_order_data_put db id b now).1) po.vendor =
      vendorOrders (db.savePO (applyPutBody b po)) po.vendor := by
    unfold vendorOrders
    rw [hlist]
  refine ⟨?_, hsnap⟩
  intro h1 h2
  obtain ⟨v2, hfind, hq, hf, ha⟩ := htrig ⟨h1, h2⟩
  exact ⟨v2, hfind, by rw [horders]; exact hq, by rw [horders]; exact hf, ha⟩

/-- Witness for C1 at a concrete database (a pending order moved to
completed by the body). -/
theorem C1_witness :
    exDB.findPO "P1" = some exPO ∧ exDB.findVendor exPO.vendor = some exVendor ∧
    ((exPO.status ≠ "completed" → (applyPutBody C2body exPO).status = "completed" →
      ∃ v2, ((purchase_order_data_put exDB "P1" C2body 3).1).findVendor exPO.vendor =
          some v2 ∧
        v2.quality_rating_avg =
          specQualityAvg
            (vendorOrders ((purchase_order_data_put exDB "P1" C2body 3).1) exPO.vendor) ∧
        v2.fulfillment_rate =
          specFulfillmentRate
            (vendorOrders ((purchase_order_data_put exDB "P1" C2body 3).1) exPO.vendor) ∧
        v2.average_response_time = exVendor.average_response_time) ∧
    (∃ rec, ((purchase_order_data_put exDB "P1" C2body 3).1).historical =
        exDB.historical ++ [rec] ∧ rec.vendor = exPO.vendor)) :=
  ⟨rfl, rfl, C1_put_trigger_and_snapshot exDB "P1" C2body 3 exPO exVendor rfl rfl⟩

/-- C2 counterexample: a PUT moving a cancelled order to completed does
trigger the recomputation — the stale stored average 99 is replaced by the
recomputed value 4 — contradicting the claim that only the
pending-to-completed edge triggers it. -/
theorem C2_counterexample :
    C2db.findPO "P2" = some cancelledPO ∧ cancelledPO.status = "cancelled" ∧
    ((purchase_order_data_put C2db "P2" C2body 7).1.findVendor "V2").map
        Vendor.quality_rating_avg = some 4 ∧
    ((purchase_order_data_put C2db "P2" C2body 7).1.findVendor "V2").map
        Vendor.quality_rating_avg ≠ some 99 := by
  have h : ((purchase_order_data_put C2db "P2" C2body 7).1.findVendor "V2").map
      Vendor.quality_rating_avg = some 4 := by
    norm_num [purchase_order_data_put, C2db, C2body, cancelledPO, applyPutBody, DB.findPO,
      DB.savePO, quality_rating_calculation, fulfillment_rate_calculation,
      create_historical_record, DB.findVendor, DB.saveVendor, staleVendor,
      quality_rating_avg_of, fulfillment_rate_of, List.find?, List.filter, List.filterMap]
  refine ⟨rfl, rfl, h, ?_⟩
  rw [h]
  simp only [ne_eq, Option.some.injEq]
  norm_num

/-- C2 amended: the recomputation of quality rating and fulfillment rate on
PUT is triggered exactly when the stored status was not `completed` and
the updated status is `completed`; in particular a cancelled-to-completed
transition does trigger it, and nothing is recomputed otherwise. -/
theorem C2_amended_trigger_edge (db : DB) (id : String) (b : POPutBody) (now : ℚ)
    (po : PurchaseOrder) (v : Vendor)
    (hpo : db.findPO id = some po) (hv : db.findVendor po.vendor = some v) :
    (¬(po.status ≠ "completed" ∧ (applyPutBody b po).status = "completed") →
      ((purchase_order_data_put db id b now).1).findVendor po.vendor = some v) ∧
    (po.status = "cancelled" → (applyPutBody b po).status = "completed" →
      ∃ v2, ((purchase_order_data_put db id b now).1).findVendor po.vendor = some v2 ∧
        v2.quality_rating_avg =
          specQualityAvg (vendorOrders ((purchase_order_data_put db id b now).1) po.vendor) ∧
        v2.fulfillment_rate =
          specFulfillmentRate
            (vendorOrders ((purchase_order_data_put db id b now).1) po.vendor)) := by
  obtain ⟨-, hlist, -, htrig, hno⟩ := put_state db id b now po v hpo hv
  have horders : vendorOrders ((purchase_order_data_put db id b now).1) po.vendor =
      vendorOrders (db.savePO (applyPutBody b po)) po.vendor := by
    unfold vendorOrders
    rw [hlist]
  refine ⟨hno, ?_⟩
  intro hc hcomp
  have hnc : po.status ≠ "completed" := by
    rw [hc]
    decide
  obtain ⟨v2, hfind, hq, hf, -⟩ := htrig ⟨hnc, hcomp⟩
  exact ⟨v2, hfind, by rw [horders]; exact hq, by rw [horders]; exact hf⟩

/-- Witness for the amended C2 at a concrete database (a cancelled order
moved to completed). -/
theorem C2_amended_witness :
    C2db.findPO "P2" = some cancelledPO ∧
    C2db.findVendor cancelledPO.vendor = some staleVendor ∧
    ((¬(cancelledPO.status ≠ "completed" ∧
        (applyPutBody C2body cancelledPO).status = "completed") →
      ((purchase_order_data_put C2db "P2" C2body 7).1).findVendor cancelledPO.vendor =
        some staleVendor) ∧
    (cancelledPO.status = "cancelled" →
      (applyPutBody C2body cancelledPO).status = "completed" →
      ∃ v2, ((purchase_order_data_put C2db "P2" C2body 7).1).findVendor
          cancelledPO.vendor = some v2 ∧
        v2.quality_rating_avg =
          specQualityAvg
            (vendorOrders ((purchase_order_data_put C2db "P2" C2body 7).1)
              cancelledPO.vendor) ∧
        v2.fulfillment_rate =
          specFulfillmentRate
            (vendorOrders ((purchase_order_data_put C2db "P2" C2body 7).1)
              cancelledPO.vendor))) :=
  ⟨rfl, rfl, C2_amended_trigger_edge C2db "P2" C2body 7 cancelledPO staleVendor rfl rfl⟩

/-- C3 counterexample: two acknowledge requests on the same order are two
mutating purchase-order operations experienced by the vendor, yet after
both the vendor holds one historical record, not two: the second
acknowledge is a no-op and creates none. -/
theorem C3_counterexample :
    histCount exDB "V1" = 0 ∧
    [POOp.ack "P1" 5, POOp.ack "P1" 9].length = 2 ∧
    histCount (runOps exDB [POOp.ack "P1" 5, POOp.ack "P1" 9]) "V1" = 1 ∧
    histCount (runOps exDB [POOp.ack "P1" 5, POOp.ack "P1" 9]) "V1" ≠ 2 := by
  have h : histCount (runOps exDB [POOp.ack "P1" 5, POOp.ack "P1" 9]) "V1" = 1 := rfl
  refine ⟨rfl, rfl, h, ?_⟩
  rw [h]
  decide

/-- C3 amended: after any sequence of mutating purchase-order requests, the
number of historical records for a vendor equals the previous count plus
the number of requests that actually append one: PUTs and DELETEs whose
target order exists and belongs to that vendor, and acknowledges of such
orders whose acknowledgement date is still null — a repeated acknowledge
appends none; and existing records are never mutated or deleted. -/
theorem C3_amended_record_accounting (db : DB) (code : String) (ops : List POOp) :
    histCount (runOps db ops) code = histCount db code + countNewRecords code db ops ∧
    db.historical <+: (runOps db ops).historical :=
  ⟨histCount_runOps db code ops, historical_runOps_grows db ops⟩

/-- C4 counterexample: the first acknowledge answers the message
"purchase order acknowledged", not the message "acknowledged" stated by
the claim. -/
theorem C4_counterexample :
    (acknowledge_purchase_order exDB "P1" 100).2.message = "purchase order acknowledged" ∧
    (acknowledge_purchase_order exDB "P1" 100).2.message ≠ "acknowledged" := by
  have h : (acknowledge_purchase_order exDB "P1" 100).2.message =
      "purchase order acknowledged" := rfl
  refine ⟨h, ?_⟩
  rw [h]
  decide

/-- C4 amended: a first acknowledge of an existing order with a null
acknowledgement date stamps the date with the current time, recomputes the
vendor's average response time (leaving its quality-rating average and
fulfillment rate untouched), appends one snapshot, and answers
"purchase order acknowledged"; a second acknowledge of the same order
leaves the whole database unchanged and answers the distinct message
"purchase order already acknowledged", as does any acknowledge of an
already-acknowledged order. -/
theorem C4_amended_acknowledge (db : DB) (id : String) (now now2 : ℚ)
    (po : PurchaseOrder) (v : Vendor)
    (hpo : db.findPO id = some po) (hv : db.findVendor po.vendor = some v) :
    (po.acknowledgement_date = none →
      (acknowledge_purchase_order db id now).2 =
        ⟨200, "purchase order acknowledged"⟩ ∧
      ((acknowledge_purchase_order db id now).1).findPO id =
        some { po with acknowledgement_date := some now } ∧
      (∃ v2, ((acknowledge_purchase_order db id now).1).findVendor po.vendor = some v2 ∧
        v2.average_response_time =
          specAvgResponseTime
            (vendorOrders ((acknowledge_purchase_order db id now).1) po.vendor) ∧
        v2.quality_rating_avg = v.quality_rating_avg ∧
        v2.fulfillment_rate = v.fulfillment_rate) ∧
      (∃ rec, ((acknowledge_purchase_order db id now).1).historical =
          db.historical ++ [rec] ∧ rec.vendor = po.vendor) ∧
      acknowledge_purchase_order ((acknowledge_purchase_order db id now).1) id now2 =
        ((acknowledge_purchase_order db id now).1,
          ⟨200, "purchase order already acknowledged"⟩)) ∧
    (po.acknowledgement_date ≠ none →
      acknowledge_purchase_order db id now =
        (db, ⟨200, "purchase order already acknowledged"⟩)) := by
  constructor
  · intro hack
    obtain ⟨hresp, hfind, hvend, hsnap⟩ := ack_state db id now po v hpo hv hack
    refine ⟨hresp, hfind, hvend, hsnap, ?_⟩
    exact ack_noop _ id now2 _ hfind (by simp)
  · intro hack
    exact ack_noop db id now po hpo hack

/-- Witness for the amended C4 at a concrete database. -/
theorem C4_amended_witness :
    exDB.findPO "P1" = some exPO ∧ exDB.findVendor exPO.vendor = some exVendor ∧
    ((exPO.acknowledgement_date = none →
      (acknowledge_purchase_order exDB "P1" 100).2 =
        ⟨200, "purchase order acknowledged"⟩ ∧
      ((acknowledge_purchase_order exDB "P1" 100).1).findPO "P1" =
        some { exPO with acknowledgement_date := some 100 } ∧
      (∃ v2, ((acknowledge_purchase_order exDB "P1" 100).1).findVendor exPO.vendor =
          some v2 ∧
        v2.average_response_time =
          specAvgResponseTime
            (vendorOrders ((acknowledge_purchase_order exDB "P1" 100).1) exPO.vendor) ∧
        v2.quality_rating_avg = exVendor.quality_rating_avg ∧
        v2.fulfillment_rate = exVendor.fulfillment_rate) ∧
      (∃ rec, ((acknowledge_purchase_order exDB "P1" 100).1).historical =
          exDB.historical ++ [rec] ∧ rec.vendor = exPO.vendor) ∧
      acknowledge_purchase_order ((acknowledge_purchase_order exDB "P1" 100).1) "P1" 200 =
        ((acknowledge_purchase_order exDB "P1" 100).1,
          ⟨200, "purchase order already acknowledged"⟩)) ∧
    (exPO.acknowledgement_date ≠ none →
      acknowledge_purchase_order exDB "P1" 100 =
        (exDB, ⟨200, "purchase order already acknowledged"⟩))) :=
  ⟨rfl, rfl, C4_amended_acknowledge exDB "P1" 100 200 exPO exVendor rfl rfl⟩

/-- C8: DELETE of an existing purchase order removes it, recomputes the
owning vendor's average response time, fulfillment rate and quality-rating
average against the now-reduced order set, appends one snapshot, and
answers 204; in particular, when the deletion leaves the vendor with no
orders all three metrics become 0. -/
theorem C8_delete_recompute (db : DB) (id : String) (now : ℚ)
    (po : PurchaseOrder) (v : Vendor)
    (hpo : db.findPO id = some po) (hv : db.findVendor po.vendor = some v) :
    (purchase_order_data_delete db id now).2 = ⟨204, "purchase order deleted"⟩ ∧
    ((purchase_order_data_delete db id now).1).purchase_orders =
      db.purchase_orders.eraseP (fun q => q.po_number == po.po_number) ∧
    (∃ v2, ((purchase_order_data_delete db id now).1).findVendor po.vendor = some v2 ∧
      v2.average_response_time =
        specAvgResponseTime
          (vendorOrders ((purchase_order_data_delete db id now).1) po.vendor) ∧
      v2.fulfillment_rate =
        specFulfillmentRate
          (vendorOrders ((purchase_order_data_delete db id now).1) po.vendor) ∧
      v2.quality_rating_avg =
        specQualityAvg
          (vendorOrders ((purchase_order_data_delete db id now).1) po.vendor) ∧
      (vendorOrders ((purchase_order_data_delete db id now).1) po.vendor = [] →
        v2.average_response_time = 0 ∧ v2.fulfillment_rate = 0 ∧
          v2.quality_rating_avg = 0)) ∧
    (∃ rec, ((purchase_order_data_delete db id now).1).historical =
        db.historical ++ [rec] ∧ rec.vendor = po.vendor) := by
  obtain ⟨hresp, hlist, ⟨v2, hfind, ha, hf, hq⟩, hsnap⟩ := delete_state db id now po v hpo hv
  refine ⟨hresp, hlist, ⟨v2, hfind, ha, hf, hq, ?_⟩, hsnap⟩
  intro hempty
  rw [hempty] at ha hf hq
  exact ⟨ha, hf, hq⟩

/-- Witness for C8 at a concrete database (deleting the vendor's only
order, which drives the three metrics to 0). -/
theorem C8_witness :
    exDB.findPO "P1" = some exPO ∧ exDB.findVendor exPO.vendor = some exVendor ∧
    ((purchase_order_data_delete exDB "P1" 50).2 = ⟨204, "purchase order deleted"⟩ ∧
    ((purchase_order_data_delete exDB "P1" 50).1).purchase_orders =
      exDB.purchase_orders.eraseP (fun q => q.po_number == exPO.po_number) ∧
    (∃ v2, ((purchase_order_data_delete exDB "P1" 50).1).findVendor exPO.vendor =
        some v2 ∧
      v2.average_response_time =
        specAvgResponseTime
          (vendorOrders ((purchase_order_data_delete exDB "P1" 50).1) exPO.vendor) ∧
      v2.fulfillment_rate =
        specFulfillmentRate
          (vendorOrders ((purchase_order_data_delete exDB "P1" 50).1) exPO.vendor) ∧
      v2.quality_rating_avg =
        specQualityAvg
          (vendorOrders ((purchase_order_data_delete exDB "P1" 50).1) exPO.vendor) ∧
      (vendorOrders ((purchase_order_data_delete exDB "P1" 50).1) exPO.vendor = [] →
        v2.average_response_time = 0 ∧ v2.fulfillment_rate = 0 ∧
          v2.quality_rating_avg = 0)) ∧
    (∃ rec, ((purchase_order_data_delete exDB "P1" 50).1).historical =
        exDB.historical ++ [rec] ∧ rec.vendor = exPO.vendor)) :=
  ⟨rfl, rfl, C8_delete_recompute exDB "P1" 50 exPO exVendor rfl rfl⟩

/-- C10: on PUT, every field whose key is absent from the body keeps its
prior value (and the vendor foreign key is never reassigned), except
`quality_rating` and `acknowledgement_date`, which are always overwritten
with the body value and therefore reset to null when their keys are
absent; the handler stores the record so obtained via Django save
semantics, so when the body does not carry `po_number` the row under the
requested id is exactly that record. -/
theorem C10_put_field_defaults (db : DB) (id : String) (b : POPutBody) (now : ℚ)
    (po : PurchaseOrder) (hpo : db.findPO id = some po) :
    ((purchase_order_data_put db id b now).1).purchase_orders =
      (db.savePO (applyPutBody b po)).purchase_orders ∧
    (b.po_number = none →
      ((purchase_order_data_put db id b now).1).findPO id = some (applyPutBody b po)) ∧
    (applyPutBody b po).vendor = po.vendor ∧
    (b.po_number = none → (applyPutBody b po).po_number = po.po_number) ∧
    (b.order_date = none → (applyPutBody b po).order_date = po.order_date) ∧
    (b.delivery_date = none → (applyPutBody b po).delivery_date = po.delivery_date) ∧
    (b.items = none → (applyPutBody b po).items = po.items) ∧
    (b.quantity = none → (applyPutBody b po).quantity = po.quantity) ∧
    (b.status = none → (applyPutBody b po).status = po.status) ∧
    (b.issue_date = none → (applyPutBody b po).issue_date = po.issue_date) ∧
    (applyPutBody b po).quality_rating = b.quality_rating ∧
    (applyPutBody b po).acknowledgement_date = b.acknowledgement_date := by
  refine ⟨?_, ?_, rfl, ?_, ?_, ?_, ?_, ?_, ?_, ?_, rfl, rfl⟩
  · unfold purchase_order_data_put
    rw [hpo]
    dsimp only
    split <;> simp
  · intro hbn
    have hn : po.po_number = id := findPO_number db id po hpo
    have h2 : (applyPutBody b po).po_number = po.po_number := by
      simp [applyPutBody, hbn]
    unfold purchase_order_data_put
    rw [hpo]
    dsimp only
    simp only [findPO_create_historical]
    have hok : (db.savePO (applyPutBody b po)).findPO id = some (applyPutBody b po) := by
      rw [← hn, ← h2]
      exact findPO_savePO_self db (applyPutBody b po) (by rw [h2, hn, hpo]; rfl)
    split
    · simp only [findPO_fulfill, findPO_quality]
      exact hok
    · exact hok
  all_goals intro h
  all_goals simp [applyPutBody, h]

/-- Witness for C10 at a concrete database, with the all-keys-absent body:
the stored order keeps every field but has its quality rating and
acknowledgement date cleared. -/
theorem C10_witness :
    exDB.findPO "P1" = some exPO ∧
    (((purchase_order_data_put exDB "P1" noneBody 9).1).purchase_orders =
      (exDB.savePO (applyPutBody noneBody exPO)).purchase_orders ∧
    (noneBody.po_number = none →
      ((purchase_order_data_put exDB "P1" noneBody 9).1).findPO "P1" =
        some (applyPutBody noneBody exPO)) ∧
    (applyPutBody noneBody exPO).vendor = exPO.vendor ∧
    (noneBody.po_number = none →
      (applyPutBody noneBody exPO).po_number = exPO.po_number) ∧
    (noneBody.order_date = none →
      (applyPutBody noneBody exPO).order_date = exPO.order_date) ∧
    (noneBody.delivery_date = none →
      (applyPutBody noneBody exPO).delivery_date = exPO.delivery_date) ∧
    (noneBody.items = none → (applyPutBody noneBody exPO).items = exPO.items) ∧
    (noneBody.quantity = none → (applyPutBody noneBody exPO).quantity = exPO.quantity) ∧
    (noneBody.status = none → (applyPutBody noneBody exPO).status = exPO.status) ∧
    (noneBody.issue_date = none →
      (applyPutBody noneBody exPO).issue_date = exPO.issue_date) ∧
    (applyPutBody noneBody exPO).quality_rating = noneBody.quality_rating ∧
    (applyPutBody noneBody exPO).acknowledgement_date = noneBody.acknowledgement_date) :=
  ⟨rfl, C10_put_field_defaults exDB "P1" noneBody 9 exPO rfl⟩

/-- C9 counterexample: a POST to `/purchase_orders` whose body addresses
the unknown vendor id "NOPE" is answered with status 400 (the caught
`DoesNotExist` error), not 404 as the claim requires of every request
addressing an unknown vendor id. -/
theorem C9_counterexample :
    emptyDB.findVendor "NOPE" = none ∧
    unknownVendorPOBody.vendor = some "NOPE" ∧
    (purchase_orders_post emptyDB unknownVendorPOBody).2 =
      ⟨400, "Vendor matching query does not exist."⟩ ∧
    (purchase_orders_post emptyDB unknownVendorPOBody).2.status ≠ 404 := by
  have h : (purchase_orders_post emptyDB unknownVendorPOBody).2 =
      ⟨400, "Vendor matching query does not exist."⟩ := rfl
  refine ⟨rfl, rfl, h, ?_⟩
  rw [h]
  decide

/-- C9 amended: a creation request missing required fields is answered 400
with an error enumerating the missing fields by name and creates no
record; a request whose URL path addresses an unknown vendor or
purchase-order id is answered 404 and changes nothing; a successful DELETE
answers 204; but a purchase-order creation whose body references an
unknown vendor id is answered 400 with the raw DoesNotExist text, not 404. -/
theorem C9_amended_validation (db : DB) (vb : VendorPostBody) (pb : POPostBody)
    (vid pid : String) (b : POPutBody) (now : ℚ) :
    (vendor_missing_fields vb ≠ [] →
      vendors_post db vb =
        (db, ⟨400, "missing fields: " ++
          String.intercalate ", " (vendor_missing_fields vb)⟩)) ∧
    (po_missing_fields pb ≠ [] →
      purchase_orders_post db pb =
        (db, ⟨400, "Missing fields: " ++
          String.intercalate ", " (po_missing_fields pb)⟩)) ∧
    (db.findVendor vid = none →
      vendor_data_delete db vid = (db, ⟨404, "invalid vendor id"⟩)) ∧
    (db.findPO pid = none →
      purchase_order_data_put db pid b now = (db, ⟨404, "invalid purchase order id"⟩) ∧
      purchase_order_data_delete db pid now = (db, ⟨404, "invalid purchase order id"⟩) ∧
      acknowledge_purchase_order db pid now = (db, ⟨404, "purchase order not found"⟩)) ∧
    (db.findVendor vid ≠ none → (vendor_data_delete db vid).2.status = 204) ∧
    (db.findPO pid ≠ none → (purchase_order_data_delete db pid now).2.status = 204) ∧
    (po_missing_fields pb = [] → pb.vendor = some vid → db.findVendor vid = none →
      purchase_orders_post db pb =
        (db, ⟨400, "Vendor matching query does not exist."⟩)) := by
  refine ⟨?_, ?_, ?_, ?_, ?_, ?_, ?_⟩
  · intro h
    unfold vendors_post vendor_missing_fields at *
    rw [if_pos h]
  · intro h
    unfold purchase_orders_post po_missing_fields at *
    rw [if_pos h]
  · intro h
    unfold vendor_data_delete
    rw [h]
  · intro h
    unfold purchase_order_data_put purchase_order_data_delete acknowledge_purchase_order
    rw [h]
    exact ⟨rfl, rfl, rfl⟩
  · intro h
    obtain ⟨v, hv⟩ := Option.ne_none_iff_exists'.mp h
    unfold vendor_data_delete
    rw [hv]
  · intro h
    obtain ⟨po, hpo⟩ := Option.ne_none_iff_exists'.mp h
    unfold purchase_order_data_delete
    rw [hpo]
  · intro hm hvd hvn
    have h0 : ∀ f ∈ po_required_fields, pb.hasField f = true := by
      intro f hf
      by_contra hnot
      have hmem : f ∈ po_missing_fields pb :=
        List.mem_filter.mpr ⟨hf, by simp [hnot]⟩
      rw [hm] at hmem
      exact absurd hmem (List.not_mem_nil f)
    have h1 : pb.po_number.isSome = true := h0 "po_number" (by decide)
    have h3 : pb.order_date.isSome = true := h0 "order_date" (by decide)
    have h4 : pb.delivery_date.isSome = true := h0 "delivery_date" (by decide)
    have h5 : pb.items.isSome = true := h0 "items" (by decide)
    have h6 : pb.quantity.isSome = true := h0 "quantity" (by decide)
    have h7 : pb.status.isSome = true := h0 "status" (by decide)
    have h8 : pb.issue_date.isSome = true := h0 "issue_date" (by decide)
    obtain ⟨num, hnum⟩ := Option.isSome_iff_exists.mp h1
    obtain ⟨odate, hod⟩ := Option.isSome_iff_exists.mp h3
    obtain ⟨ddate, hdd⟩ := Option.isSome_iff_exists.mp h4
    obtain ⟨its, hits⟩ := Option.isSome_iff_exists.mp h5
    obtain ⟨qty, hqty⟩ := Option.isSome_iff_exists.mp h6
    obtain ⟨st, hst⟩ := Option.isSome_iff_exists.mp h7
    obtain ⟨idate, hid⟩ := Option.isSome_iff_exists.mp h8
    unfold purchase_orders_post
    rw [hm]
    dsimp only
    rw [if_neg (by simp)]
    rw [hnum, hvd, hod, hdd, hits, hqty, hst, hid]
    dsimp only
    rw [hvn]

/-- Witness for the amended C9, instantiated on concrete databases for each
clause. -/
theorem C9_amended_witness :
    (vendor_missing_fields emptyVendorBody ≠ [] ∧
      vendors_post emptyDB emptyVendorBody =
        (emptyDB, ⟨400, "missing fields: " ++
          String.intercalate ", " (vendor_missing_fields emptyVendorBody)⟩)) ∧
    (po_missing_fields emptyPOBody ≠ [] ∧
      purchase_orders_post emptyDB emptyPOBody =
        (emptyDB, ⟨400, "Missing fields: " ++
          String.intercalate ", " (po_missing_fields emptyPOBody)⟩)) ∧
    (exDB.findVendor "NOPE" = none ∧
      vendor_data_delete exDB "NOPE" = (exDB, ⟨404, "invalid vendor id"⟩)) ∧
    (exDB.findPO "NOPE" = none ∧
      purchase_order_data_put exDB "NOPE" noneBody 0 =
        (exDB, ⟨404, "invalid purchase order id"⟩) ∧
      purchase_order_data_delete exDB "NOPE" 0 =
        (exDB, ⟨404, "invalid purchase order id"⟩) ∧
      acknowledge_purchase_order exDB "NOPE" 0 =
        (exDB, ⟨404, "purchase order not found"⟩)) ∧
    (exDB.findVendor "V1" ≠ none ∧ (vendor_data_delete exDB "V1").2.status = 204) ∧
    (exDB.findPO "P1" ≠ none ∧ (purchase_order_data_delete exDB "P1" 0).2.status = 204) ∧
    (po_missing_fields unknownVendorPOBody = [] ∧
      unknownVendorPOBody.vendor = some "NOPE" ∧ emptyDB.findVendor "NOPE" = none ∧
      purchase_orders_post emptyDB unknownVendorPOBody =
        (emptyDB, ⟨400, "Vendor matching query does not exist."⟩)) := by
  obtain ⟨c1, c2, -, -, -, -, -⟩ :=
    C9_amended_validation emptyDB emptyVendorBody emptyPOBody "NOPE" "NOPE" noneBody 0
  obtain ⟨-, -, d3, d4, -, -, -⟩ :=
    C9_amended_validation exDB emptyVendorBody emptyPOBody "NOPE" "NOPE" noneBody 0
  obtain ⟨-, -, -, -, e5, e6, -⟩ :=
    C9_amended_validation exDB emptyVendorBody emptyPOBody "V1" "P1" noneBody 0
  obtain ⟨-, -, -, -, -, -, f7⟩ :=
    C9_amended_validation emptyDB emptyVendorBody unknownVendorPOBody "NOPE" "NOPE"
      noneBody 0
  exact ⟨⟨by decide, c1 (by decide)⟩, ⟨by decide, c2 (by decide)⟩,
    ⟨rfl, d3 rfl⟩, ⟨rfl, d4 rfl⟩,
    ⟨by decide, e5 (by decide)⟩, ⟨by decide, e6 (by decide)⟩,
    ⟨by decide, rfl, rfl, f7 (by decide) rfl rfl⟩⟩

end VMS
